import Mathlib

/-!
Verification of the Keithley 2614B sweep-execution engine
(`k2614B_driver.py`, `k2614B_main.py`) against its natural-language
specification.  Voltages, times and currents are modelled as rationals;
the instrument's TSP scripts are modelled by their control structure
(loop iteration counts and phase sequences); the line-oriented command
channel is modelled as the list of lines written to it.
-/

namespace K2614B

/-! ## ScriptBuilder: the Linear sweep (`k2614B.IVsweep`)

The TSP script emitted by `IVsweep` ramps `V` from `Vstart` to `Vend`:
forwards it runs `while V <= Vend do … V = V + Vstep end`, backwards
`while V >= Vend do … V = V - Vstep end`, and when `Vstart == Vend` it
executes `error("Invalid sweep parameters.")`.  Each loop iteration takes
one measurement.  The loop does not terminate for `vstep ≤ 0`, so the
model guards the recursion on `0 < vstep` (the spec requires `stepV > 0`).
-/

/-- Iteration count of the forward ramp loop `while V <= Vend do … V = V + Vstep end`
of the `IVsweep` TSP script. -/
def fwdRampCount (V vend vstep : ℚ) : ℕ :=
  if h : 0 < vstep ∧ V ≤ vend then
    fwdRampCount (V + vstep) vend vstep + 1
  else 0
termination_by Nat.floor ((vend - V) / vstep + 1)
decreasing_by
  obtain ⟨hs, hV⟩ := h
  have hne : vstep ≠ 0 := ne_of_gt hs
  have harg : (vend - (V + vstep)) / vstep + 1 = (vend - V) / vstep := by
    field_simp
    ring
  have hx : (0 : ℚ) ≤ (vend - V) / vstep :=
    div_nonneg (by linarith) (le_of_lt hs)
  rw [harg]
  have : ((vend - V) / vstep + 1 : ℚ) = ((vend - V) / vstep) + 1 := by ring
  rw [this, Nat.floor_add_one hx]
  exact Nat.lt_succ_self _

/-- Iteration count of the reverse ramp loop `while V >= Vend do … V = V - Vstep end`
of the `IVsweep` TSP script. -/
def revRampCount (V vend vstep : ℚ) : ℕ :=
  if h : 0 < vstep ∧ vend ≤ V then
    revRampCount (V - vstep) vend vstep + 1
  else 0
termination_by Nat.floor ((V - vend) / vstep + 1)
decreasing_by
  obtain ⟨hs, hV⟩ := h
  have hne : vstep ≠ 0 := ne_of_gt hs
  have harg : (V - vstep - vend) / vstep + 1 = (V - vend) / vstep := by
    field_simp
    ring
  have hx : (0 : ℚ) ≤ (V - vend) / vstep :=
    div_nonneg (by linarith) (le_of_lt hs)
  rw [harg]
  have : ((V - vend) / vstep + 1 : ℚ) = ((V - vend) / vstep) + 1 := by ring
  rw [this, Nat.floor_add_one hx]
  exact Nat.lt_succ_self _

/-- Outcome of executing the measurement routine of the `IVsweep` TSP script:
the number of measured points, or the script-level
`error("Invalid sweep parameters.")` when `Vstart == Vend`. -/
def IVsweepPointCount (vstart vstop vstep : ℚ) : Except Unit ℕ :=
  if vstart < vstop then Except.ok (fwdRampCount vstart vstop vstep)
  else if vstart > vstop then Except.ok (revRampCount vstart vstop vstep)
  else Except.error ()

/-! ## ScriptBuilder: the repeated sweep (`k2614B.IVsweepRep`)

The TSP script emitted by `IVsweepRep` has three blocks: a ramp of `V`
from `0` to `Vstart`, a `while i <= repeats` loop whose body performs a
single sweep from the current `Vstart` towards the current `Vend`
(forwards when `Vstart < Vend`, backwards when `Vstart > Vend`) and then
executes `Vstart = -1 * Vstart; Vend = -1 * Vend`, and finally a ramp
from `V = -1 * Vend` (the post-loop value of `Vend`) back to `0`.  The
model records the phase sequence with the endpoints of each phase.
-/

/-- One phase of the `IVsweepRep` script: a ramp or a measured sweep
between the two given voltages. -/
inductive Phase where
  | ramp (vfrom vto : ℚ)
  | sweep (vfrom vto : ℚ)
deriving DecidableEq, Repr

/-- Whether a phase is a measurement sweep (not a ramp). -/
def Phase.isSweep : Phase → Bool
  | Phase.sweep _ _ => true
  | _ => false

/-- The `while i <= repeats` loop of the `IVsweepRep` script: each
iteration sweeps from the current `Vstart` to the current `Vend`, then
both are multiplied by `-1`.  Returns the emitted sweep phases together
with the final values of `Vstart` and `Vend`. -/
def repLoop : ℕ → ℚ → ℚ → List Phase × ℚ × ℚ
  | 0, vstart, vend => ([], vstart, vend)
  | Nat.succ n, vstart, vend =>
    let rest := repLoop n (-1 * vstart) (-1 * vend)
    (Phase.sweep vstart vend :: rest.1, rest.2)

/-- Phase sequence of the whole `IVsweepRep` script: ramp `0 → Vstart`,
the repeat loop, then the ramp starting at `V = -1 * Vend` (post-loop
`Vend`) back to `0`. -/
def IVsweepRepPhases (vstart vstop : ℚ) (repeats : ℕ) : List Phase :=
  let rl := repLoop repeats vstart vstop
  Phase.ramp 0 vstart :: rl.1 ++ [Phase.ramp (-1 * rl.2.2) 0]

/-- The sweep structure asserted by the specification (formalised from the
spec's words, for comparison with `repLoop`): each of the `repeats`
iterations contains a full forward sweep `Vstart → Vend` followed by a
full backward sweep `Vend → Vstart`, and the polarity of both endpoints
is inverted only after such a complete forward+backward pair. -/
def specRepPairs : ℕ → ℚ → ℚ → List Phase
  | 0, _, _ => []
  | Nat.succ n, vstart, vend =>
    Phase.sweep vstart vend :: Phase.sweep vend vstart ::
      specRepPairs n (-1 * vstart) (-1 * vend)

/-! ## ScriptLoader (`k2614B.loadTSP`)

`loadTSP` writes the line `"loadscript"`, then each line of the script
body in order via `_write`, then the line `"endscript"`.  The command
channel is modelled as the list of lines written to it so far. -/

/-- One `_write` on an open channel: the line is appended to the channel
trace. -/
def chanWrite (chan : List String) (m : String) : List String := chan ++ [m]

/-- `k2614B.loadTSP`: write `"loadscript"`, then every line of the script
body in order, then `"endscript"`.  (The body is the list of lines read
from the `.tsp` file.) -/
def loadTSP (chan : List String) (body : List String) : List String :=
  let c1 := chanWrite chan "loadscript"
  let c2 := body.foldl chanWrite c1
  chanWrite c2 "endscript"

/-! ## BufferReader (`k2614B.readBuffer`)

`readBuffer` issues two `printbuffer` queries, splits each response on
`","`, converts every token with Python's `float`, and pairs the two
lists positionally (one row of the resulting DataFrame per index).  A
non-numeric token raises `ValueError` inside `float` (the spec's
`DecodeError`); lists of different lengths make the DataFrame
constructor raise `ValueError` (the spec's `LengthMismatch`).
`float` is modelled on its standard decimal/exponent notation with
optional sign and surrounding whitespace (special forms such as `inf`,
`nan` or underscores are not modelled). -/

/-- Strip ASCII whitespace from both ends, as Python `float` does before
parsing. -/
def trimChars (cs : List Char) : List Char :=
  ((cs.dropWhile Char.isWhitespace).reverse.dropWhile Char.isWhitespace).reverse

/-- Accumulate a run of decimal digits; fails on any non-digit. -/
def parseDigitsAux : List Char → ℕ → Option ℕ
  | [], acc => some acc
  | c :: cs, acc =>
    if c.isDigit then parseDigitsAux cs (acc * 10 + (c.toNat - 48)) else none

/-- A nonempty run of decimal digits as a natural number. -/
def parseDigits (cs : List Char) : Option ℕ :=
  if cs.isEmpty then none else parseDigitsAux cs 0

/-- Take an optional leading sign; `true` means negative. -/
def parseSign : List Char → Bool × List Char
  | '-' :: cs => (true, cs)
  | '+' :: cs => (false, cs)
  | cs => (false, cs)

/-- Split at the first `'.'`, if any. -/
def splitAtDot : List Char → List Char × Option (List Char)
  | [] => ([], none)
  | c :: cs =>
    if c = '.' then ([], some cs)
    else
      let r := splitAtDot cs
      (c :: r.1, r.2)

/-- Split at the first `'e'` or `'E'`, if any. -/
def splitAtExp : List Char → List Char × Option (List Char)
  | [] => ([], none)
  | c :: cs =>
    if c = 'e' ∨ c = 'E' then ([], some cs)
    else
      let r := splitAtExp cs
      (c :: r.1, r.2)

/-- Unsigned decimal mantissa: digits, optionally with one dot; at least
one digit in total. -/
def parseDec (cs : List Char) : Option ℚ :=
  match splitAtDot cs with
  | (w, none) => (parseDigits w).map (fun n => (n : ℚ))
  | (w, some f) =>
    if w.isEmpty ∧ f.isEmpty then none
    else
      match (if w.isEmpty then some 0 else parseDigits w),
            (if f.isEmpty then some 0 else parseDigits f) with
      | some n, some m => some ((n : ℚ) + (m : ℚ) / 10 ^ f.length)
      | _, _ => none

/-- Signed integer exponent after `e`/`E`. -/
def parseExpPart (cs : List Char) : Option ℤ :=
  let sr := parseSign cs
  (parseDigits sr.2).map (fun n => if sr.1 then -(n : ℤ) else (n : ℤ))

/-- Model of Python `float(token)` on decimal/exponent notation. -/
def parseFloat (s : List Char) : Option ℚ :=
  let t := trimChars s
  let sr := parseSign t
  match splitAtExp sr.2 with
  | (mant, none) => (parseDec mant).map (fun q => if sr.1 then -q else q)
  | (mant, some ex) =>
    match parseDec mant, parseExpPart ex with
    | some q, some e => some ((if sr.1 then -q else q) * 10 ^ e)
    | _, _ => none

/-- Python `str.split(",")`: split on every comma, keeping empty pieces. -/
def splitComma : List Char → List (List Char)
  | [] => [[]]
  | c :: cs =>
    if c = ',' then [] :: splitComma cs
    else
      match splitComma cs with
      | [] => [[c]]
      | t :: ts => (c :: t) :: ts

/-- The list comprehension `[float(x) for x in resp.split(",")]`: `none`
when any token fails to parse (Python raises `ValueError`). -/
def parseFloatList (resp : List Char) : Option (List ℚ) :=
  (splitComma resp).mapM parseFloat

/-- Failure classification of `readBuffer` per the specification's error
taxonomy: `DecodeError` is the `ValueError` raised by `float` on a
malformed token, `LengthMismatch` the `ValueError` raised by the
DataFrame constructor on columns of different lengths. -/
inductive BufferError where
  | DecodeError
  | LengthMismatch
deriving DecidableEq, Repr

/-- `k2614B.readBuffer` given the two query responses: decode the source
values, then the readings, then pair them positionally. -/
def readBuffer (srcResp measResp : List Char) : Except BufferError (List (ℚ × ℚ)) :=
  match parseFloatList srcResp with
  | none => Except.error BufferError.DecodeError
  | some vd =>
    match parseFloatList measResp with
    | none => Except.error BufferError.DecodeError
    | some c =>
      if vd.length = c.length then Except.ok (vd.zip c)
      else Except.error BufferError.LengthMismatch

/-! ## Compliance settings of the generated scripts

Each builder embeds a fixed `smua.source.limiti = …` line in its TSP
text: `IVsweep` sets `10e-6`, `SweepVListMeasureI`, `IVsweepRep` and
`squareVoltage` set `50e-3`.  None of the builders takes a compliance
parameter.  The models below record, per builder, the parameters that
are interpolated into the script together with the compliance value the
script sets. -/

/-- The parameter assignments and compliance setting of the `IVsweep`
TSP script. -/
structure IVsweepScript where
  vstartSet : ℚ
  vendSet : ℚ
  vstepSet : ℚ
  stepTimeSet : ℚ
  repeatsSet : ℤ
  limiti : ℚ
deriving DecidableEq, Repr

/-- Builder for the `IVsweep` script: interpolates the sweep parameters
and hardcodes `smua.source.limiti = 10e-6`. -/
def buildIVsweep (vstart vstop vstep stepTime : ℚ) (repeats : ℤ) : IVsweepScript :=
  { vstartSet := vstart, vendSet := vstop, vstepSet := vstep,
    stepTimeSet := stepTime, repeatsSet := repeats,
    limiti := 10 / 10 ^ 6 }

/-- The parameter assignments and compliance setting of the `IVsweepRep`
TSP script. -/
structure IVsweepRepScript where
  vstartSet : ℚ
  vendSet : ℚ
  vstepSet : ℚ
  stepTimeSet : ℚ
  repeatsSet : ℤ
  limiti : ℚ
deriving DecidableEq, Repr

/-- Builder for the `IVsweepRep` script: interpolates the sweep
parameters and hardcodes `smua.source.limiti = 50e-3`. -/
def buildIVsweepRep (vstart vstop vstep stepTime : ℚ) (repeats : ℤ) : IVsweepRepScript :=
  { vstartSet := vstart, vendSet := vstop, vstepSet := vstep,
    stepTimeSet := stepTime, repeatsSet := repeats,
    limiti := 50 / 10 ^ 3 }

/-- The parameters and compliance setting of the `SweepVListMeasureI`
TSP script (list-driven sweep). -/
structure VListScript where
  vlistSet : List ℚ
  stimeSet : ℚ
  pointsSet : ℕ
  limiti : ℚ
deriving DecidableEq, Repr

/-- Builder for the `SweepVListMeasureI` script: interpolates the voltage
list, settle time and point count, and hardcodes
`smua.source.limiti = 50e-3`. -/
def buildSweepVList (vlist : List ℚ) (stime : ℚ) (points : ℕ) : VListScript :=
  { vlistSet := vlist, stimeSet := stime, pointsSet := points,
    limiti := 50 / 10 ^ 3 }

/-- The parameters and compliance setting of the `squareVoltage` TSP
script (square-wave hold). -/
structure SquareScript where
  vPosSet : ℚ
  vNegSet : ℚ
  vTimeSet : ℚ
  nRepeatsSet : ℤ
  limiti : ℚ
deriving DecidableEq, Repr

/-- Builder for the `squareVoltage` script: interpolates the hold
parameters and hardcodes `smua.source.limiti = 50e-3`. -/
def buildSquareVoltage (vPos vNeg vTime : ℚ) (nRepeats : ℤ) : SquareScript :=
  { vPosSet := vPos, vNegSet := vNeg, vTimeSet := vTime,
    nRepeatsSet := nRepeats, limiti := 50 / 10 ^ 3 }

/-! ## SweepController duration estimate (`measureThread.run`)

`measureThread.run` computes
`vrange = abs(startV) + abs(stopV)`, `num_points = vrange / stepV`, and
then `measure_time = num_points * (stepT + 0.1) * 2` when `repeats == 0`
(the `IVsweep` branch) or
`measure_time = (num_points * (stepT + 0.15) * 2) * repeats` otherwise
(the `IVsweepRep` branch). -/

/-- `num_points` as computed in `measureThread.run`:
`(abs(startV) + abs(stopV)) / stepV`. -/
def numPoints (startV stopV stepV : ℚ) : ℚ := (|startV| + |stopV|) / stepV

/-- `measure_time` of `measureThread.run`, branching on `repeats == 0`
exactly as the thread does. -/
def measureTime (startV stopV stepV stepT : ℚ) (repeats : ℕ) : ℚ :=
  if repeats = 0 then
    numPoints startV stopV stepV * (stepT + 1 / 10) * 2
  else
    (numPoints startV stopV stepV * (stepT + 3 / 20) * 2) * repeats

/-! ## DeviceChannel and Session (`k2614B._write`, `_query`,
`closeConnection`) and the background threads (`measureThread.run`,
`bufferThread.run`)

Python exceptions relevant to the driver are modelled explicitly.  A
missing `self.inst` attribute (no connection ever established) surfaces
as `AttributeError`.  -/

/-- The Python exception classes that appear in the driver and the two
thread bodies. -/
inductive PyError where
  | ConnectionError
  | KeyError
  | AttributeError
  | NameError
  | FileNotFoundError
deriving DecidableEq, Repr

/-- The bare instrument write `self.inst.write(m)`: raises
`AttributeError` when `self.inst` was never created (no connection),
otherwise appends the line to the channel. -/
def instWrite (connected : Bool) (chan : List String) (m : String) :
    Except PyError (List String) :=
  if connected then Except.ok (chan ++ [m]) else Except.error PyError.AttributeError

/-- `k2614B._write`: runs `self.inst.write(m)` inside
`try … except AttributeError: print(…)` — the exception is caught and
only a message is printed, so the call returns normally and no line is
written. -/
def writeOp (connected : Bool) (chan : List String) (m : String) :
    Except PyError (List String) :=
  match instWrite connected chan m with
  | Except.ok c => Except.ok c
  | Except.error e =>
    if e = PyError.AttributeError then Except.ok chan else Except.error e

/-- The bare instrument query `self.inst.query(s)`: raises
`AttributeError` when `self.inst` was never created, otherwise returns
the device's response. -/
def instQuery (connected : Bool) (response : String) : Except PyError String :=
  if connected then Except.ok response else Except.error PyError.AttributeError

/-- `k2614B._query`: runs `self.inst.query(s)` inside a `try` block whose
`except FileNotFoundError` and `except AttributeError` handlers return
the literal string `"CONNECTION ERROR: No connection established."` as
if it were a response. -/
def queryOp (connected : Bool) (response : String) : Except PyError String :=
  match instQuery connected response with
  | Except.ok r => Except.ok r
  | Except.error e =>
    if e = PyError.FileNotFoundError ∨ e = PyError.AttributeError then
      Except.ok "CONNECTION ERROR: No connection established."
    else Except.error e

/-- Lifecycle state of the Session owned by a `k2614B` object. -/
inductive SessionState where
  | Unopened
  | Opened
  | Closed
deriving DecidableEq, Repr

/-- The `try` body of `closeConnection`, i.e. `self.inst.close()`:
raises `AttributeError` when `self.inst` was never created; closes an
open session; on an already-closed session pyvisa's `Resource.close`
suppresses its internal `InvalidSession` and returns normally
(modelled third-party behaviour of pyvisa). -/
def closeBody : SessionState → Except PyError SessionState
  | SessionState.Unopened => Except.error PyError.AttributeError
  | SessionState.Opened => Except.ok SessionState.Closed
  | SessionState.Closed => Except.ok SessionState.Closed

/-- `k2614B.closeConnection`: runs `self.inst.close()` inside
`try … except NameError … except AttributeError`, each handler printing
a message and returning normally. -/
def closeConnection (st : SessionState) : Except PyError SessionState :=
  match closeBody st with
  | Except.ok s => Except.ok s
  | Except.error e =>
    if e = PyError.NameError ∨ e = PyError.AttributeError then Except.ok st
    else Except.error e

/-- The method names defined by `class k2614B` in `k2614B_driver.py`. -/
def k2614BMethods : List String :=
  ["__init__", "makeConnection", "closeConnection", "_write", "_read",
   "_query", "loadTSP", "runTSP", "readBuffer", "IVsweep", "IVsweep2",
   "SweepVListMeasureI", "IVsweepRep", "squareVoltage",
   "SweepILinMeasureV", "PulseIMeasureV", "PulseVMeasureI"]

/-- Observable events of a background thread run, in program order. -/
inductive RunEvent where
  | openSession
  | sweep
  | readBuf
  | closeSession
  | finishedSig
  | errorSig
deriving DecidableEq, Repr

/-- Where, if anywhere, a `measureThread.run` execution fails:
`atOpen` models `k2614B(address)` raising `ConnectionError`
(`makeConnection` converts any `IOError` into `ConnectionError`);
`atSweep e` models the sweep call raising the exception `e`. -/
inductive FailPoint where
  | ok
  | atOpen
  | atSweep (e : PyError)
deriving DecidableEq, Repr

/-- The `try` body of `measureThread.run`: open the connection, run the
sweep, sleep for the estimate, close the connection, emit
`finishedSig`.  Returns the event trace and the exception that escaped
the body, if any. -/
def measureTryBody (fp : FailPoint) : List RunEvent × Option PyError :=
  match fp with
  | FailPoint.atOpen => ([], some PyError.ConnectionError)
  | FailPoint.atSweep e => ([RunEvent.openSession], some e)
  | FailPoint.ok =>
    ([RunEvent.openSession, RunEvent.sweep, RunEvent.closeSession,
      RunEvent.finishedSig], none)

/-- `measureThread.run`: the `try` body wrapped in
`except ConnectionError: errorSig.emit(…)`.  Any other exception
escapes the thread unhandled. -/
def measureRun (fp : FailPoint) : List RunEvent × Option PyError :=
  match measureTryBody fp with
  | (tr, none) => (tr, none)
  | (tr, some e) =>
    if e = PyError.ConnectionError then (tr ++ [RunEvent.errorSig], none)
    else (tr, some e)

/-- The `try` body of `bufferThread.run`: open the connection, then call
`keithley.readBufferIV()`.  The attribute lookup consults the methods of
`class k2614B`; since `readBufferIV` is not among them, Python raises
`AttributeError` there and the rest of the body (save, close,
`finishedSig`) is never reached.  `openFails` models `k2614B(address)`
raising `ConnectionError`. -/
def bufferTryBody (openFails : Bool) : List RunEvent × Option PyError :=
  if openFails then ([], some PyError.ConnectionError)
  else if k2614BMethods.contains "readBufferIV" then
    ([RunEvent.openSession, RunEvent.readBuf, RunEvent.closeSession,
      RunEvent.finishedSig], none)
  else ([RunEvent.openSession], some PyError.AttributeError)

/-- `bufferThread.run`: the `try` body wrapped in
`except ConnectionError` and `except KeyError` handlers, each emitting
`errorSig`.  Any other exception escapes the thread unhandled. -/
def bufferRun (openFails : Bool) : List RunEvent × Option PyError :=
  match bufferTryBody openFails with
  | (tr, none) => (tr, none)
  | (tr, some e) =>
    if e = PyError.ConnectionError ∨ e = PyError.KeyError then
      (tr ++ [RunEvent.errorSig], none)
    else (tr, some e)

/-! ## Helper lemmas -/

/-- Closed form of the forward ramp loop: starting at `V ≤ Vend` with a
positive step, the loop body runs `⌊(Vend − V)/Vstep⌋ + 1` times. -/
theorem fwdRampCount_eq (vend vstep : ℚ) (hs : 0 < vstep) :
    ∀ (n : ℕ) (V : ℚ), V ≤ vend → Nat.floor ((vend - V) / vstep) = n →
      fwdRampCount V vend vstep = n + 1 := by
  intro n
  induction n with
  | zero =>
    intro V hV hfl
    rw [fwdRampCount, dif_pos ⟨hs, hV⟩, fwdRampCount, dif_neg]
    intro hcon
    have hlt : (vend - V) / vstep < 1 := Nat.floor_eq_zero.mp hfl
    have : vend - V < vstep := (div_lt_one hs).mp hlt
    linarith [hcon.2]
  | succ n ih =>
    intro V hV hfl
    have hx : (0 : ℚ) ≤ (vend - V) / vstep :=
      div_nonneg (by linarith) (le_of_lt hs)
    have hiff := (Nat.floor_eq_iff hx).mp hfl
    have hge : ((n : ℚ) + 1) ≤ (vend - V) / vstep := by
      have := hiff.1
      exact_mod_cast this
    have hlt : (vend - V) / vstep < ((n : ℚ) + 1) + 1 := by
      exact_mod_cast hiff.2
    have h1 : V + vstep ≤ vend := by
      have h1q : (1 : ℚ) ≤ (vend - V) / vstep := by
        have hn : (0 : ℚ) ≤ (n : ℚ) := Nat.cast_nonneg n
        linarith
      have := (one_le_div hs).mp h1q
      linarith
    have harg : (vend - (V + vstep)) / vstep = (vend - V) / vstep - 1 := by
      field_simp
      ring
    have h2 : Nat.floor ((vend - (V + vstep)) / vstep) = n := by
      rw [harg]
      have hx2 : (0 : ℚ) ≤ (vend - V) / vstep - 1 := by linarith
      rw [Nat.floor_eq_iff hx2]
      exact ⟨by linarith, by linarith⟩
    rw [fwdRampCount, dif_pos ⟨hs, hV⟩, ih (V + vstep) h1 h2]

/-- Closed form of the repeat loop of `IVsweepRep`: `r` single sweeps
whose endpoints alternate in sign, with final parameter values
`(-1)^r * Vstart` and `(-1)^r * Vend`. -/
theorem repLoop_eq (r : ℕ) : ∀ (a b : ℚ),
    repLoop r a b =
      ((List.range r).map fun i => Phase.sweep ((-1) ^ i * a) ((-1) ^ i * b),
       (-1) ^ r * a, (-1) ^ r * b) := by
  induction r with
  | zero => intro a b; simp [repLoop]
  | succ n ih =>
    intro a b
    rw [repLoop, ih (-1 * a) (-1 * b)]
    rw [List.range_succ_eq_map]
    simp only [List.map_cons, List.map_map, Prod.mk.injEq]
    refine ⟨List.cons_eq_cons.mpr ⟨by norm_num, ?_⟩, by ring, by ring⟩
    apply List.map_congr_left
    intro i _
    simp only [Function.comp_apply, Nat.succ_eq_add_one]
    have h1 : ((-1 : ℚ)) ^ i * (-1 * a) = (-1) ^ (i + 1) * a := by ring
    have h2 : ((-1 : ℚ)) ^ i * (-1 * b) = (-1) ^ (i + 1) * b := by ring
    rw [h1, h2]

/-- Folding `chanWrite` over a body appends the body to the channel. -/
theorem foldl_chanWrite (body : List String) : ∀ (chan : List String),
    body.foldl chanWrite chan = chan ++ body := by
  induction body with
  | nil => intro chan; simp
  | cons l ls ih =>
    intro chan
    simp only [List.foldl_cons, chanWrite, ih]
    simp

/-! ## Claim theorems -/

/-- C1 (counterexample): at `vstart = 0`, `vstop = 3`, `vstep = 2` the
`IVsweep` loop measures at `V = 0` and `V = 2` only — 2 points — while
the claimed formula `ceil((stopV − startV)/stepV) + 1` gives 3. -/
theorem linear_step_count_cex :
    IVsweepPointCount 0 3 2 ≠
      Except.ok ((Int.ceil (((3 : ℚ) - 0) / 2)).toNat + 1) := by
  have hfl : Nat.floor (((3 : ℚ) - 0) / 2) = 1 := by
    rw [Nat.floor_eq_iff (by norm_num)]
    norm_num
  have hc : Int.ceil (((3 : ℚ) - 0) / 2) = 2 := by
    rw [Int.ceil_eq_iff]
    norm_num
  have h := fwdRampCount_eq 3 2 (by norm_num) 1 0 (by norm_num) hfl
  rw [IVsweepPointCount, if_pos (by norm_num), h, hc]
  simp

/-- C1 (amended): for a positive step, a Linear sweep with
`startV < stopV` measures `floor((stopV − startV)/stepV) + 1` points
(this equals `ceil(…) + 1` only when `stepV` divides the range), and
when `startV == stopV` the generated script stops with
`error("Invalid sweep parameters.")` at execution instead of silently
measuring nothing. -/
theorem linear_step_count (vstart vstop vstep : ℚ) (hstep : 0 < vstep) :
    (vstart < vstop →
      IVsweepPointCount vstart vstop vstep =
        Except.ok (Nat.floor ((vstop - vstart) / vstep) + 1)) ∧
    (vstart = vstop →
      IVsweepPointCount vstart vstop vstep = Except.error ()) := by
  constructor
  · intro hlt
    rw [IVsweepPointCount, if_pos hlt,
      fwdRampCount_eq vstop vstep hstep (Nat.floor ((vstop - vstart) / vstep))
        vstart (le_of_lt hlt) rfl]
  · intro heq
    subst heq
    rw [IVsweepPointCount, if_neg (lt_irrefl _), if_neg (lt_irrefl _)]

/-- C1 (witness): with `vstart = 0`, `vstop = 1`, `vstep = 1/2` the
sweep measures `floor(2) + 1 = 3` points. -/
theorem linear_step_count_witness :
    IVsweepPointCount 0 1 (1 / 2) = Except.ok 3 := by
  have h := (linear_step_count 0 1 (1 / 2) (by norm_num)).1 (by norm_num)
  rw [h]
  norm_num

/-- C2 (counterexample): with `repeats = 1`, `startV = -10`,
`stopV = 10`, the script's measurement sweeps are the single sweep
`-10 → 10`, whereas the claim requires every iteration to contain a
forward sweep and then a backward sweep (two sweeps per iteration,
`specRepPairs`). -/
theorem repeated_sweep_cex :
    (IVsweepRepPhases (-10) 10 1).filter Phase.isSweep ≠
      specRepPairs 1 (-10) 10 := by
  intro h
  have hlen := congrArg List.length h
  simp [IVsweepRepPhases, repLoop, specRepPairs, Phase.isSweep,
    List.filter] at hlen

/-- C2 (amended): the `IVsweepRep` script consists of a ramp from 0 to
`startV`, then `repeats` single full sweeps — the i-th from
`(-1)^i·startV` to `(-1)^i·stopV`, so the direction alternates and the
polarity of both endpoints is inverted after every single sweep, not
after a forward+backward pair — then a ramp from the final (inverted)
stop endpoint `(-1)^(repeats+1)·stopV` back down to 0. -/
theorem repeated_sweep_structure (vstart vstop : ℚ) (r : ℕ) :
    IVsweepRepPhases vstart vstop r =
      Phase.ramp 0 vstart ::
        ((List.range r).map fun i =>
          Phase.sweep ((-1) ^ i * vstart) ((-1) ^ i * vstop))
        ++ [Phase.ramp ((-1) ^ (r + 1) * vstop) 0] := by
  have harg : (-1 : ℚ) * ((-1) ^ r * vstop) = (-1) ^ (r + 1) * vstop := by
    ring
  simp only [IVsweepRepPhases, repLoop_eq, harg]

/-- C3: `loadTSP` writes exactly one `loadscript` marker line, then the
body lines verbatim in order, then exactly one `endscript` marker line,
and nothing else, for every body (empty lines included). -/
theorem upload_framing (chan body : List String) :
    loadTSP chan body = chan ++ ["loadscript"] ++ body ++ ["endscript"] := by
  simp [loadTSP, chanWrite, foldl_chanWrite]

/-- C4: when both buffer-dump responses decode as numeric lists,
`readBuffer` pairs them by position when the lengths agree and fails
with `LengthMismatch` when they differ; when either response has a
malformed token it fails with `DecodeError`. -/
theorem buffer_read_zip (srcResp measResp : List Char) :
    (∀ vd c, parseFloatList srcResp = some vd →
      parseFloatList measResp = some c →
      ((vd.length = c.length →
          readBuffer srcResp measResp = Except.ok (vd.zip c)) ∧
       (vd.length ≠ c.length →
          readBuffer srcResp measResp =
            Except.error BufferError.LengthMismatch))) ∧
    ((parseFloatList srcResp = none ∨ parseFloatList measResp = none) →
      readBuffer srcResp measResp = Except.error BufferError.DecodeError) := by
  constructor
  · intro vd c hs hm
    constructor
    · intro hlen
      simp [readBuffer, hs, hm, hlen]
    · intro hlen
      simp [readBuffer, hs, hm, hlen]
  · rintro (h | h)
    · simp [readBuffer, h]
    · cases hs : parseFloatList srcResp <;> simp [readBuffer, hs, h]

/-- C4 (witness): source list `"1.0,2.0"` and measured list
`"0.001,0.002"` decode and zip to `[(1.0, 0.001), (2.0, 0.002)]`, and
against the shorter `"0.001"` the read fails with `LengthMismatch`. -/
theorem buffer_read_zip_witness :
    readBuffer ['1', '.', '0', ',', '2', '.', '0']
        ['0', '.', '0', '0', '1', ',', '0', '.', '0', '0', '2'] =
      Except.ok [(1, 1 / 1000), (2, 1 / 500)] ∧
    readBuffer ['1', '.', '0', ',', '2', '.', '0']
        ['0', '.', '0', '0', '1'] =
      Except.error BufferError.LengthMismatch := by
  have hs : parseFloatList ['1', '.', '0', ',', '2', '.', '0'] =
      some [1, 2] := by
    simp +decide [parseFloatList, splitComma, List.mapM.loop, parseFloat,
      trimChars, parseSign, splitAtExp, splitAtDot, parseDec, parseDigits,
      parseDigitsAux]
  have hm : parseFloatList ['0', '.', '0', '0', '1', ',', '0', '.', '0', '0', '2'] =
      some [1 / 1000, 1 / 500] := by
    simp +decide [parseFloatList, splitComma, List.mapM.loop, parseFloat,
      trimChars, parseSign, splitAtExp, splitAtDot, parseDec, parseDigits,
      parseDigitsAux]
    norm_num
  have hm2 : parseFloatList ['0', '.', '0', '0', '1'] = some [1 / 1000] := by
    simp +decide [parseFloatList, splitComma, List.mapM.loop, parseFloat,
      trimChars, parseSign, splitAtExp, splitAtDot, parseDec, parseDigits,
      parseDigitsAux]
  constructor
  · have h := ((buffer_read_zip _ _).1 [1, 2] [1 / 1000, 1 / 500] hs hm).1 rfl
    rw [h]
    rfl
  · exact ((buffer_read_zip _ _).1 [1, 2] [1 / 1000] hs hm2).2 (by norm_num)

/-- C5 (counterexample): the `IVsweep` script sets
`smua.source.limiti = 10e-6` (10 µA) regardless of the spec, so for the
GUI's default compliance exponent −3 the claimed value
`1×10^(−3) A` is not what the script sets. -/
theorem compliance_cex :
    (buildIVsweep (-10) 10 1 (1 / 10) 1).limiti ≠ (10 : ℚ) ^ (-3 : ℤ) := by
  norm_num [buildIVsweep]

/-- C5 (amended): every builder hardcodes its compliance limit,
independent of all spec parameters: `IVsweep` sets `10e-6` A and
`IVsweepRep`, `SweepVListMeasureI` and `squareVoltage` set `50e-3` A;
the compliance exponent collected by the GUI is never passed to any
builder. -/
theorem compliance_hardcoded (vstart vstop vstep stepTime vPos vNeg vTime : ℚ)
    (repeats nRepeats : ℤ) (vlist : List ℚ) (stime : ℚ) (points : ℕ) :
    (buildIVsweep vstart vstop vstep stepTime repeats).limiti = 1 / 100000 ∧
    (buildIVsweepRep vstart vstop vstep stepTime repeats).limiti = 1 / 20 ∧
    (buildSweepVList vlist stime points).limiti = 1 / 20 ∧
    (buildSquareVoltage vPos vNeg vTime nRepeats).limiti = 1 / 20 := by
  refine ⟨?_, ?_, ?_, ?_⟩ <;>
    norm_num [buildIVsweep, buildIVsweepRep, buildSweepVList,
      buildSquareVoltage]

/-- C6: `measureThread.run`'s estimate equals
`num_points × (stepT + overhead) × 2 × max(repeats, 1)` with the
per-variant overhead constant `0.1` s (single sweep, `repeats = 0`) or
`0.15` s (repeated sweep); in particular a repeated sweep with 100
points, `stepT = 0.1` s and `repeats = 2` is estimated at exactly
`100 × (0.1 + 0.15) × 2 × 2 = 100` seconds. -/
theorem duration_estimate (startV stopV stepV stepT : ℚ) (r : ℕ) :
    measureTime startV stopV stepV stepT r =
      numPoints startV stopV stepV *
        (stepT + if r = 0 then 1 / 10 else 3 / 20) * 2 * (max r 1 : ℕ) ∧
    (numPoints startV stopV stepV = 100 → stepT = 1 / 10 → r = 2 →
      measureTime startV stopV stepV stepT r = 100) := by
  constructor
  · by_cases hr : r = 0
    · subst hr
      simp [measureTime]
    · have hmax : max r 1 = r := Nat.max_eq_left (Nat.one_le_iff_ne_zero.mpr hr)
      rw [measureTime, if_neg hr, hmax, if_neg hr]
  · intro hp ht hr
    subst ht hr
    rw [measureTime, if_neg (by norm_num), hp]
    norm_num

/-- C6 (witness): `startV = -5`, `stopV = 5`, `stepV = 0.1` give 100
points, and with `stepT = 0.1`, `repeats = 2` the estimate is 100 s. -/
theorem duration_estimate_witness :
    measureTime (-5) 5 (1 / 10) (1 / 10) 2 = 100 :=
  (duration_estimate (-5) 5 (1 / 10) (1 / 10) 2).2 (by norm_num [numPoints])
    rfl rfl

/-- C7 (counterexample): when the sweep call raises `ConnectionError`
after the session opened, `measureThread.run` emits `errorSig` without
ever closing the session. -/
theorem failure_session_cex :
    RunEvent.openSession ∈
        (measureRun (FailPoint.atSweep PyError.ConnectionError)).1 ∧
    RunEvent.errorSig ∈
        (measureRun (FailPoint.atSweep PyError.ConnectionError)).1 ∧
    RunEvent.closeSession ∉
        (measureRun (FailPoint.atSweep PyError.ConnectionError)).1 := by
  decide

/-- C7 (amended): no failure path of either background thread closes the
session: on any in-flight failure `measureThread.run` reports the error
(or lets the exception escape) with the session still open, and
`bufferThread.run` never reaches its close call at all; the session is
closed only on `measureThread.run`'s success path. -/
theorem failure_session_not_closed :
    (∀ e : PyError,
      RunEvent.closeSession ∉ (measureRun (FailPoint.atSweep e)).1) ∧
    RunEvent.closeSession ∉ (measureRun FailPoint.atOpen).1 ∧
    (∀ b : Bool, RunEvent.closeSession ∉ (bufferRun b).1) ∧
    (measureRun FailPoint.ok).1 =
      [RunEvent.openSession, RunEvent.sweep, RunEvent.closeSession,
       RunEvent.finishedSig] := by
  refine ⟨?_, by decide, ?_, by decide⟩
  · intro e
    cases e <;> decide
  · intro b
    cases b <;> decide

/-- C8 (counterexample): `_write` on a never-connected object returns
normally with nothing written — it does not fail with a typed
`NotConnected` error; the `AttributeError` is caught and only printed. -/
theorem write_not_connected_cex :
    writeOp false [] "smua.reset()" = Except.ok [] := by
  simp [writeOp, instWrite]

/-- C8 (amended): without an open Session, `_write` catches the
`AttributeError`, prints a message and returns normally having written
nothing, and `_query` likewise returns the literal string
`"CONNECTION ERROR: No connection established."` as if it were a
response — the failure is swallowed, not raised to the caller; with an
open Session both behave normally. -/
theorem write_swallows_error (chan : List String) (m resp : String) :
    writeOp false chan m = Except.ok chan ∧
    queryOp false resp =
      Except.ok "CONNECTION ERROR: No connection established." ∧
    writeOp true chan m = Except.ok (chan ++ [m]) ∧
    queryOp true resp = Except.ok resp := by
  refine ⟨?_, ?_, ?_, ?_⟩ <;> simp [writeOp, instWrite, queryOp, instQuery]

/-- C9: `closeConnection` is total and idempotent: it returns normally
from every session state — in particular on a session that never opened
(the `AttributeError` is caught) and on one already closed (a second
close is a no-op). -/
theorem close_idempotent :
    (∀ st : SessionState, ∃ s2 : SessionState,
      closeConnection st = Except.ok s2) ∧
    closeConnection SessionState.Opened = Except.ok SessionState.Closed ∧
    closeConnection SessionState.Closed = Except.ok SessionState.Closed ∧
    closeConnection SessionState.Unopened = Except.ok SessionState.Unopened := by
  refine ⟨?_, rfl, rfl, rfl⟩
  intro st
  cases st <;> exact ⟨_, rfl⟩

/-- C10: `readBufferIV` is not a method of `class k2614B`, so every run
of `bufferThread.run` that opens a connection raises `AttributeError`
at the call — an exception its handlers (`ConnectionError`, `KeyError`)
do not catch — and in no run (connection failure included) is
`finishedSig` ever emitted. -/
theorem buffer_thread_never_finishes :
    "readBufferIV" ∉ k2614BMethods ∧
    (∀ b : Bool, RunEvent.finishedSig ∉ (bufferRun b).1) ∧
    (bufferRun false).2 = some PyError.AttributeError ∧
    (bufferRun true).2 = none ∧
    RunEvent.errorSig ∈ (bufferRun true).1 := by
  refine ⟨by decide, ?_, by decide, by decide, by decide⟩
  intro b
  cases b <;> decide

end K2614B
